import Mathlib

/-!
Shallow embedding of `src/App.js` of the ai-study-buddy repository: the mode
enumeration, the prompt-template assembly, submission validation, the gateway
request/response handling inside `getAiResponse`, the history snapshot sort,
the MBTI selection handler, and the history-item click handler.

JavaScript string falsiness (`!s` is true exactly when the string is empty,
`x || y` picks `y` when `x` is falsy) is modelled explicitly.
-/

/-- The five tab modes set by the UI (`activeTab`). -/
inductive Mode where
  | mentor
  | qa
  | summary
  | quiz
  | image
deriving DecidableEq, Repr

/-- The selected image file (`imageFile` state): only the fields the code
reads (`file.name` for display, `file.type` as the MIME type). -/
structure ImageFile where
  name : String
  type : String
deriving DecidableEq, Repr

/-- JS truthiness of an optional string: `null`/`undefined` and `""` are falsy. -/
def jsTruthy : Option String → Bool
  | none => false
  | some s => s != ""

/-- JS `x || null` on an optional string (used for `studentMbti || null`). -/
def jsOrNull (x : Option String) : Option String :=
  if jsTruthy x then x else none

/-- JS template interpolation of a possibly-null string: `null` renders as
the text "null". -/
def jsInterp (x : Option String) : String :=
  match x with
  | some s => s
  | none => "null"

/-- Timestamp field of a record written by the client: the code always writes
the `serverTimestamp()` sentinel, never a client-side time. -/
inductive WriteTimestamp where
  | serverTimestamp
  | clientTime (millis : Nat)
deriving DecidableEq, Repr

/-- An Exchange record as written by `addDoc` in `getAiResponse`. -/
structure StoredExchange where
  type : Mode
  prompt : String
  response : String
  mbti : Option String
  timestamp : WriteTimestamp
deriving DecidableEq, Repr

/-- A history document as read back by the `onSnapshot` callback:
`timestamp` is `none` while the server timestamp is not yet resolved,
otherwise the resolved time in milliseconds. -/
structure HistoryItem where
  id : String
  type : Mode
  prompt : String
  response : String
  mbti : Option String
  timestamp : Option Nat
deriving DecidableEq, Repr

/-- One part of the gateway request body. -/
inductive PayloadPart where
  | text (t : String)
  | inlineData (mimeType : String) (data : String)
deriving DecidableEq, Repr

/-- The single `contents` entry of the gateway request body:
`{ role: "user", parts: [...] }`. -/
structure Payload where
  role : String
  parts : List PayloadPart
deriving DecidableEq, Repr

/-- A part of a gateway response candidate (`text` may be absent). -/
structure RespPart where
  text : Option String
deriving DecidableEq, Repr

/-- `content` of a response candidate (`parts` may be absent). -/
structure RespContent where
  parts : Option (List RespPart)
deriving DecidableEq, Repr

/-- A response candidate (`content` may be absent). -/
structure Candidate where
  content : Option RespContent
deriving DecidableEq, Repr

/-- The parsed JSON body of a 2xx gateway response (`candidates` may be absent). -/
structure ApiResult where
  candidates : Option (List Candidate)
deriving DecidableEq, Repr

/-- Outcome of the `fetch` to the gateway: non-ok HTTP status (the code throws
with the status text), a network-level rejection, or a 2xx body. -/
inductive FetchResult where
  | httpFailure (statusText : String)
  | networkError (message : String)
  | success (body : ApiResult)
deriving DecidableEq, Repr

/-- The component state of `App`, restricted to the fields the modelled
handlers read or write.  `fileInput` is the value of the file-picker control
when it is mounted (`fileInputRef.current`), `none` when it is not.
`hasDb`/`hasUserId` record whether `db` and `userId` are non-null. -/
structure AppState where
  activeTab : Mode
  prompt : String
  imageFile : Option ImageFile
  imageBase64 : Option String
  response : String
  isLoading : Bool
  history : List HistoryItem
  error : String
  studentMbti : Option String
  showMbtiModal : Bool
  fileInput : Option String
  hasDb : Bool
  hasUserId : Bool
deriving DecidableEq, Repr

/-- The mentor-mode template literal, with `studentMbti` interpolated twice and
the student's question quoted, including the literal's indentation. -/
def mentorTemplate (mbti : String) (prompt : String) : String :=
  "\n                당신은 초등학생을 위한 AI 학습 멘토입니다. 이 학생의 MBTI는 " ++ mbti ++
  "입니다.\n                당신의 역할은 정답을 직접 알려주는 것이 아니라, 학생이 스스로 문제를 해결하도록 돕는 것입니다.\n                다음 규칙을 반드시 지켜주세요:\n                1. 절대로 문제의 최종 정답을 말하지 마세요.\n                2. 학생의 질문에 대해, 문제를 해결하기 위해 어떤 개념을 알아야 하는지, 혹은 어떤 순서로 접근하면 좋을지 단계별로 안내해주세요.\n                3. 친절하고 격려하는 말투를 사용하며, 학생의 MBTI(" ++ mbti ++
  ") 성향을 고려하여 소통해주세요.\n                4. 어려운 용어는 초등학생 눈높이에 맞춰 쉽게 설명해주세요.\n\n                학생의 질문: \"" ++ prompt ++ "\"\n            "

/-- `fullPrompt` assembly in `getAiResponse`, keyed on `activeTab`.  (The JS
`switch` has a `default: fullPrompt = prompt` arm, unreachable with the five
modes the UI can set.) -/
def buildFullPrompt (activeTab : Mode) (studentMbti : Option String) (prompt : String) : String :=
  match activeTab with
  | Mode.mentor => mentorTemplate (jsInterp studentMbti) prompt
  | Mode.qa => "다음 질문에 대해 자세히 답변해줘: " ++ prompt
  | Mode.summary => "다음 텍스트를 핵심만 간추려 요약해줘: " ++ prompt
  | Mode.quiz => "다음 내용이나 주제를 바탕으로 객관식 퀴즈 3개를 만들어줘. 각 질문 뒤에 정답도 알려줘: " ++ prompt
  | Mode.image => "이 이미지에 대해 다음 질문에 답변해줘: " ++ prompt

/-- MIME type read off `imageFile.type`.  In the app `imageBase64` is truthy
only when `imageFile` is set, so the `none` arm is unreachable there (JS would
throw on a null `imageFile`). -/
def imageFileType : Option ImageFile → String
  | some f => f.type
  | none => ""

/-- The request body built in `getAiResponse`: a text part with the assembled
template, plus an inline-data part exactly when `activeTab === 'image' &&
imageBase64`. -/
def buildPayload (s : AppState) (fullPrompt : String) : Payload :=
  let base : List PayloadPart := [PayloadPart.text fullPrompt]
  if s.activeTab = Mode.image ∧ jsTruthy s.imageBase64 = true then
    { role := "user",
      parts := base ++ [PayloadPart.inlineData (imageFileType s.imageFile) (s.imageBase64.getD "")] }
  else
    { role := "user", parts := base }

/-- `result.candidates?.[0]?.content?.parts?.[0]?.text` as an optional chain. -/
def extractText (r : ApiResult) : Option String :=
  ((((r.candidates.bind List.head?).bind (fun c => c.content)).bind
      (fun c => c.parts)).bind List.head?).bind (fun p => p.text)

/-- The fixed placeholder substituted when no valid response text is present. -/
def noValidResponseMsg : String := "유효한 응답을 받지 못했습니다."

/-- `generatedText = extracted || placeholder` (JS `||`: `undefined` and the
empty string both fall through to the placeholder). -/
def generatedTextOf (body : ApiResult) : String :=
  match extractText body with
  | some t => if t = "" then noValidResponseMsg else t
  | none => noValidResponseMsg

/-- The error message set by the empty-input validation guard. -/
def emptyInputMsg : String := "질문, 텍스트 또는 이미지를 입력해주세요."

/-- The error message set by the mentor-without-MBTI validation guard. -/
def mentorNeedsMbtiMsg : String := "멘토링을 시작하기 전에 MBTI를 선택해주세요."

/-- The error message written by the catch block of `getAiResponse`:
"AI 응답 생성 중 오류가 발생했습니다: " followed by `err.message`. -/
def apiCallErrorMsg (m : String) : String :=
  "AI 응답 생성 중 오류가 발생했습니다: " ++ m

/-- The error message thrown on a non-ok HTTP status:
"API 요청 실패: " followed by the status text. -/
def apiRequestFailed (statusText : String) : String :=
  "API 요청 실패: " ++ statusText

/-- The `finally` block of `getAiResponse`: clear the loading flag, the prompt
text, the image state, and (when mounted) the file-picker control. -/
def finallyCleanup (s : AppState) : AppState :=
  { s with isLoading := false, prompt := "", imageFile := none, imageBase64 := none,
           fileInput := s.fileInput.map (fun _ => "") }

/-- Result of one run of `getAiResponse`: the new component state, the request
body sent to the gateway (`none` when the call was blocked before `fetch`),
and the Exchange records appended to the history store by `addDoc`. -/
structure GetAiOutcome where
  state : AppState
  request : Option Payload
  appended : List StoredExchange
deriving DecidableEq, Repr

/-- `getAiResponse`, with the two external effects as parameters: `fetch` is
the gateway call's outcome and `addDoc` the store write's outcome (error
message on failure). -/
def getAiResponse (s : AppState) (fetch : FetchResult) (addDoc : Except String Unit) :
    GetAiOutcome :=
  if s.prompt = "" ∧ jsTruthy s.imageBase64 = false then
    { state := { s with error := emptyInputMsg }, request := none, appended := [] }
  else if s.activeTab = Mode.mentor ∧ jsTruthy s.studentMbti = false then
    { state := { s with error := mentorNeedsMbtiMsg, showMbtiModal := true },
      request := none, appended := [] }
  else
    let s1 : AppState := { s with isLoading := true, response := "", error := "" }
    let fullPrompt := buildFullPrompt s.activeTab s.studentMbti s.prompt
    let payload := buildPayload s fullPrompt
    match fetch with
    | FetchResult.httpFailure statusText =>
        { state := finallyCleanup { s1 with error := apiCallErrorMsg (apiRequestFailed statusText) },
          request := some payload, appended := [] }
    | FetchResult.networkError message =>
        { state := finallyCleanup { s1 with error := apiCallErrorMsg message },
          request := some payload, appended := [] }
    | FetchResult.success body =>
        let generatedText := generatedTextOf body
        let s2 : AppState := { s1 with response := generatedText }
        if s.hasDb = true ∧ s.hasUserId = true then
          match addDoc with
          | Except.ok _ =>
              { state := finallyCleanup s2, request := some payload,
                appended := [{ type := s.activeTab, prompt := s.prompt,
                               response := generatedText, mbti := jsOrNull s.studentMbti,
                               timestamp := WriteTimestamp.serverTimestamp }] }
          | Except.error message =>
              { state := finallyCleanup { s2 with error := apiCallErrorMsg message },
                request := some payload, appended := [] }
        else
          { state := finallyCleanup s2, request := some payload, appended := [] }

/-- Sort key used by the `onSnapshot` callback:
`b.timestamp?.toDate() || 0` — an unresolved timestamp counts as 0. -/
def sortKey (e : HistoryItem) : Nat :=
  match e.timestamp with
  | some t => t
  | none => 0

/-- `a` may come before `b` under the comparator
`(a, b) => (b.key) - (a.key)`, i.e. descending by key. -/
def historyLe (a b : HistoryItem) : Bool :=
  sortKey b ≤ sortKey a

/-- The comparator `(a, b) => (b.key) - (a.key)` sorts descending by key;
modelled as a stable merge sort under the matching `le`. -/
def sortHistory (l : List HistoryItem) : List HistoryItem :=
  l.mergeSort historyLe

/-- The `onSnapshot` callback: rebuild the whole list from the snapshot and
replace the `history` state with its descending sort. -/
def onSnapshotUpdate (docs : List HistoryItem) (s : AppState) : AppState :=
  { s with history := sortHistory docs }

/-- `handleMbtiSelect`: no-op without `db`/`userId`; otherwise set the local
MBTI state, then attempt the merge-write; dismiss the modal on success, set an
error message on failure. -/
def handleMbtiSelect (s : AppState) (mbti : String) (setDocResult : Except String Unit) :
    AppState :=
  if s.hasDb = true ∧ s.hasUserId = true then
    let s1 : AppState := { s with studentMbti := some mbti }
    match setDocResult with
    | Except.ok _ => { s1 with showMbtiModal := false }
    | Except.error _ => { s1 with error := "MBTI 정보를 저장하는 데 실패했습니다." }
  else s

/-- The history-entry click handler:
`setResponse(item.response); setPrompt(item.prompt); setActiveTab(item.type)`.
The handler contains no fetch and no store write, so the outcome records no
request and no appended Exchange. -/
def historyItemClick (s : AppState) (item : HistoryItem) : GetAiOutcome :=
  { state := { s with response := item.response, prompt := item.prompt, activeTab := item.type },
    request := none, appended := [] }

/-- The post-call side effects of the `finally` block, as a predicate on the
resulting state: loading cleared, input text cleared, attached image cleared,
file-picker control (when mounted) reset. -/
def postCallCleared (t : AppState) : Prop :=
  t.isLoading = false ∧ t.prompt = "" ∧ t.imageFile = none ∧ t.imageBase64 = none ∧
  (∀ v, t.fileInput = some v → v = "")

/-! Concrete sample values used by the witness theorems. -/

/-- A well-formed 2xx response body carrying one text part. -/
def exBodyHello : ApiResult :=
  { candidates := some [{ content := some { parts := some [{ text := some "답변입니다" }] } }] }

/-- A 2xx response body with no candidates at all. -/
def exBodyNone : ApiResult := { candidates := none }

/-- A baseline authenticated component state in `qa` mode with a nonempty
prompt and no image. -/
def exStateBase : AppState :=
  { activeTab := Mode.qa, prompt := "질문", imageFile := none, imageBase64 := none,
    response := "", isLoading := false, history := [], error := "",
    studentMbti := some "INTJ", showMbtiModal := false, fileInput := none,
    hasDb := true, hasUserId := true }

/-- C5: for mode `qa`, the assembled template is the fixed wrapper with the
prompt text substituted verbatim, for every prompt string. -/
theorem qa_template_verbatim (studentMbti : Option String) (X : String) :
    buildFullPrompt Mode.qa studentMbti X = "다음 질문에 대해 자세히 답변해줘: " ++ X := rfl

/-- C9: clicking a History Feed entry copies its `response`, `prompt` and
`type` into the current state and issues no gateway request and no store
write. -/
theorem history_click_recall (s : AppState) (item : HistoryItem) :
    (historyItemClick s item).state.response = item.response ∧
    (historyItemClick s item).state.prompt = item.prompt ∧
    (historyItemClick s item).state.activeTab = item.type ∧
    (historyItemClick s item).request = none ∧
    (historyItemClick s item).appended = [] :=
  ⟨rfl, rfl, rfl, rfl, rfl⟩

/-- C1: with empty prompt text and no attached image, submission is rejected
in every mode before the gateway is contacted: no request, the validation
message is set, the input is not cleared, and nothing is appended. -/
theorem empty_submission_blocked (s : AppState) (fetch : FetchResult)
    (addDoc : Except String Unit) (hp : s.prompt = "") (hi : s.imageBase64 = none) :
    (getAiResponse s fetch addDoc).request = none ∧
    (getAiResponse s fetch addDoc).state.error = emptyInputMsg ∧
    (getAiResponse s fetch addDoc).state.prompt = s.prompt ∧
    (getAiResponse s fetch addDoc).state.imageBase64 = s.imageBase64 ∧
    (getAiResponse s fetch addDoc).appended = [] := by
  simp [getAiResponse, hp, hi, jsTruthy]

/-- Witness for C1 at a concrete state. -/
theorem empty_submission_blocked_witness :
    (getAiResponse { exStateBase with prompt := "" } (FetchResult.success exBodyHello)
        (Except.ok ())).request = none ∧
    (getAiResponse { exStateBase with prompt := "" } (FetchResult.success exBodyHello)
        (Except.ok ())).state.error = emptyInputMsg ∧
    (getAiResponse { exStateBase with prompt := "" } (FetchResult.success exBodyHello)
        (Except.ok ())).state.prompt = ({ exStateBase with prompt := "" } : AppState).prompt ∧
    (getAiResponse { exStateBase with prompt := "" } (FetchResult.success exBodyHello)
        (Except.ok ())).state.imageBase64 =
      ({ exStateBase with prompt := "" } : AppState).imageBase64 ∧
    (getAiResponse { exStateBase with prompt := "" } (FetchResult.success exBodyHello)
        (Except.ok ())).appended = [] :=
  empty_submission_blocked { exStateBase with prompt := "" }
    (FetchResult.success exBodyHello) (Except.ok ()) rfl rfl

/-- C10: with `db` and `userId` present, selecting an MBTI updates the local
profile state regardless of the merge-write's outcome: on failure the local
state still holds the new category, the save-error message is shown and the
modal stays as it was; only a successful write dismisses the modal. -/
theorem mbti_select_local_first (s : AppState) (mbti : String)
    (hdb : s.hasDb = true) (hu : s.hasUserId = true) :
    (∀ msg, (handleMbtiSelect s mbti (Except.error msg)).studentMbti = some mbti ∧
            (handleMbtiSelect s mbti (Except.error msg)).error =
              "MBTI 정보를 저장하는 데 실패했습니다." ∧
            (handleMbtiSelect s mbti (Except.error msg)).showMbtiModal = s.showMbtiModal) ∧
    (handleMbtiSelect s mbti (Except.ok ())).studentMbti = some mbti ∧
    (handleMbtiSelect s mbti (Except.ok ())).showMbtiModal = false := by
  unfold handleMbtiSelect
  simp [hdb, hu]

/-- Witness for C10 at a concrete state, with a concrete failed write and a
successful write. -/
theorem mbti_select_local_first_witness :
    ((handleMbtiSelect exStateBase "ENFP" (Except.error "오류")).studentMbti = some "ENFP" ∧
     (handleMbtiSelect exStateBase "ENFP" (Except.error "오류")).error =
       "MBTI 정보를 저장하는 데 실패했습니다." ∧
     (handleMbtiSelect exStateBase "ENFP" (Except.error "오류")).showMbtiModal =
       exStateBase.showMbtiModal) ∧
    (handleMbtiSelect exStateBase "ENFP" (Except.ok ())).studentMbti = some "ENFP" ∧
    (handleMbtiSelect exStateBase "ENFP" (Except.ok ())).showMbtiModal = false :=
  ⟨(mbti_select_local_first exStateBase "ENFP" rfl rfl).1 "오류",
   (mbti_select_local_first exStateBase "ENFP" rfl rfl).2⟩

/-- C2 counterexample: in mentor mode with no MBTI set, submitting with an
empty prompt and no image is caught by the empty-input guard first: the
empty-input message is shown and the MBTI modal is NOT opened. -/
theorem mentor_empty_prompt_modal_not_opened :
    ({ exStateBase with activeTab := Mode.mentor, prompt := "", studentMbti := none } :
        AppState).activeTab = Mode.mentor ∧
    ({ exStateBase with activeTab := Mode.mentor, prompt := "", studentMbti := none } :
        AppState).studentMbti = none ∧
    (getAiResponse { exStateBase with activeTab := Mode.mentor, prompt := "", studentMbti := none }
        (FetchResult.success exBodyHello) (Except.ok ())).state.showMbtiModal = false ∧
    (getAiResponse { exStateBase with activeTab := Mode.mentor, prompt := "", studentMbti := none }
        (FetchResult.success exBodyHello) (Except.ok ())).state.error = emptyInputMsg := by
  refine ⟨rfl, rfl, ?_, ?_⟩ <;> rfl

/-- C2 (amended): for every submission that passes the empty-input check, if
the mode is `mentor` and no MBTI is set, the call is blocked before the
gateway: no request, the mentor validation message is set, the MBTI modal is
opened, the input is kept, and nothing is appended. -/
theorem mentor_without_mbti_blocked (s : AppState) (fetch : FetchResult)
    (addDoc : Except String Unit)
    (hpass : ¬(s.prompt = "" ∧ jsTruthy s.imageBase64 = false))
    (hm : s.activeTab = Mode.mentor) (hmbti : s.studentMbti = none) :
    (getAiResponse s fetch addDoc).request = none ∧
    (getAiResponse s fetch addDoc).state.error = mentorNeedsMbtiMsg ∧
    (getAiResponse s fetch addDoc).state.showMbtiModal = true ∧
    (getAiResponse s fetch addDoc).state.prompt = s.prompt ∧
    (getAiResponse s fetch addDoc).appended = [] := by
  unfold getAiResponse
  rw [if_neg hpass, if_pos ⟨hm, by rw [hmbti]; rfl⟩]
  exact ⟨rfl, rfl, rfl, rfl, rfl⟩

/-- Witness for the amended C2 at a concrete state with a nonempty prompt. -/
theorem mentor_without_mbti_blocked_witness :
    (getAiResponse { exStateBase with activeTab := Mode.mentor, studentMbti := none }
        (FetchResult.success exBodyHello) (Except.ok ())).request = none ∧
    (getAiResponse { exStateBase with activeTab := Mode.mentor, studentMbti := none }
        (FetchResult.success exBodyHello) (Except.ok ())).state.error = mentorNeedsMbtiMsg ∧
    (getAiResponse { exStateBase with activeTab := Mode.mentor, studentMbti := none }
        (FetchResult.success exBodyHello) (Except.ok ())).state.showMbtiModal = true ∧
    (getAiResponse { exStateBase with activeTab := Mode.mentor, studentMbti := none }
        (FetchResult.success exBodyHello) (Except.ok ())).state.prompt =
      ({ exStateBase with activeTab := Mode.mentor, studentMbti := none } : AppState).prompt ∧
    (getAiResponse { exStateBase with activeTab := Mode.mentor, studentMbti := none }
        (FetchResult.success exBodyHello) (Except.ok ())).appended = [] :=
  mentor_without_mbti_blocked { exStateBase with activeTab := Mode.mentor, studentMbti := none }
    (FetchResult.success exBodyHello) (Except.ok ()) (by decide) rfl rfl

/-- The `finally` block always establishes the post-call clearing. -/
theorem postCallCleared_finallyCleanup (s : AppState) : postCallCleared (finallyCleanup s) := by
  refine ⟨rfl, rfl, rfl, rfl, ?_⟩
  intro v hv
  cases hfi : s.fileInput with
  | none => simp [finallyCleanup, hfi] at hv
  | some w => simp [finallyCleanup, hfi] at hv; exact hv.symm

/-- C4: a non-success HTTP status appends no Exchange and surfaces the catch
block's error message, and — for any gateway or store outcome once the call
was made — the loading flag, prompt text, attached image and mounted
file-picker control are all cleared by the `finally` block. -/
theorem gateway_failure_no_write_and_cleanup (s : AppState) (statusText : String)
    (addDoc : Except String Unit)
    (h1 : ¬(s.prompt = "" ∧ jsTruthy s.imageBase64 = false))
    (h2 : ¬(s.activeTab = Mode.mentor ∧ jsTruthy s.studentMbti = false)) :
    (getAiResponse s (FetchResult.httpFailure statusText) addDoc).appended = [] ∧
    (getAiResponse s (FetchResult.httpFailure statusText) addDoc).state.error =
      apiCallErrorMsg (apiRequestFailed statusText) ∧
    postCallCleared (getAiResponse s (FetchResult.httpFailure statusText) addDoc).state ∧
    ∀ (fetch : FetchResult) (ad : Except String Unit),
      postCallCleared (getAiResponse s fetch ad).state := by
  have hmain : ∀ (fetch : FetchResult) (ad : Except String Unit),
      postCallCleared (getAiResponse s fetch ad).state := by
    intro fetch ad
    cases fetch with
    | httpFailure st =>
        simp only [getAiResponse, h1, h2, if_false]
        exact postCallCleared_finallyCleanup _
    | networkError m =>
        simp only [getAiResponse, h1, h2, if_false]
        exact postCallCleared_finallyCleanup _
    | success body =>
        by_cases hdb : s.hasDb = true ∧ s.hasUserId = true
        · cases ad with
          | ok u =>
              simp only [getAiResponse, h1, h2, hdb, if_false, if_true]
              exact postCallCleared_finallyCleanup _
          | error m =>
              simp only [getAiResponse, h1, h2, hdb, if_false, if_true]
              exact postCallCleared_finallyCleanup _
        · simp only [getAiResponse, h1, h2, hdb, if_false]
          exact postCallCleared_finallyCleanup _
  refine ⟨?_, ?_, hmain _ _, hmain⟩
  · simp [getAiResponse, h1, h2]
  · simp [getAiResponse, finallyCleanup, h1, h2]

/-- Witness for C4 at a concrete state and a concrete failed status. -/
theorem gateway_failure_no_write_and_cleanup_witness :
    (getAiResponse exStateBase (FetchResult.httpFailure "Bad Request")
        (Except.ok ())).appended = [] ∧
    (getAiResponse exStateBase (FetchResult.httpFailure "Bad Request")
        (Except.ok ())).state.error = apiCallErrorMsg (apiRequestFailed "Bad Request") ∧
    postCallCleared (getAiResponse exStateBase (FetchResult.httpFailure "Bad Request")
        (Except.ok ())).state ∧
    postCallCleared (getAiResponse exStateBase (FetchResult.success exBodyHello)
        (Except.ok ())).state :=
  ⟨(gateway_failure_no_write_and_cleanup exStateBase "Bad Request" (Except.ok ())
      (by decide) (by decide)).1,
   (gateway_failure_no_write_and_cleanup exStateBase "Bad Request" (Except.ok ())
      (by decide) (by decide)).2.1,
   (gateway_failure_no_write_and_cleanup exStateBase "Bad Request" (Except.ok ())
      (by decide) (by decide)).2.2.1,
   (gateway_failure_no_write_and_cleanup exStateBase "Bad Request" (Except.ok ())
      (by decide) (by decide)).2.2.2 (FetchResult.success exBodyHello) (Except.ok ())⟩

/-- C3: when the call passes validation and the gateway call and store write
succeed (with `db` and `userId` present), exactly one Exchange is appended,
its `type`/`prompt`/`response`/`mbti` equal to those of the request and its
timestamp the server-assigned sentinel; and, for any state and any outcome, an
Exchange is appended only when the gateway call succeeded. -/
theorem success_appends_one_exchange (s : AppState) (body : ApiResult)
    (h1 : ¬(s.prompt = "" ∧ jsTruthy s.imageBase64 = false))
    (h2 : ¬(s.activeTab = Mode.mentor ∧ jsTruthy s.studentMbti = false))
    (hdb : s.hasDb = true) (hu : s.hasUserId = true) :
    (getAiResponse s (FetchResult.success body) (Except.ok ())).appended =
      [{ type := s.activeTab, prompt := s.prompt, response := generatedTextOf body,
         mbti := jsOrNull s.studentMbti, timestamp := WriteTimestamp.serverTimestamp }] ∧
    ∀ (s2 : AppState) (fetch : FetchResult) (ad : Except String Unit),
      (getAiResponse s2 fetch ad).appended ≠ [] → ∃ b, fetch = FetchResult.success b := by
  constructor
  · simp [getAiResponse, h1, h2, hdb, hu]
  · intro s2 fetch ad hne
    cases fetch with
    | success b => exact ⟨b, rfl⟩
    | httpFailure st =>
        exfalso
        apply hne
        unfold getAiResponse
        split
        · rfl
        · split
          · rfl
          · rfl
    | networkError m =>
        exfalso
        apply hne
        unfold getAiResponse
        split
        · rfl
        · split
          · rfl
          · rfl

/-- Witness for C3 at a concrete state and body. -/
theorem success_appends_one_exchange_witness :
    (getAiResponse exStateBase (FetchResult.success exBodyHello) (Except.ok ())).appended =
      [{ type := exStateBase.activeTab, prompt := exStateBase.prompt,
         response := generatedTextOf exBodyHello, mbti := jsOrNull exStateBase.studentMbti,
         timestamp := WriteTimestamp.serverTimestamp }] :=
  (success_appends_one_exchange exStateBase exBodyHello
    (by decide) (by decide) rfl rfl).1

/-- C7: when the 2xx body lacks the first-candidate first-text-part shape, the
fixed placeholder is used instead of failing (no error is set) and it is
persisted as the `response` of the single appended Exchange, exactly as a real
answer would be. -/
theorem malformed_body_placeholder_persisted (s : AppState) (body : ApiResult)
    (h1 : ¬(s.prompt = "" ∧ jsTruthy s.imageBase64 = false))
    (h2 : ¬(s.activeTab = Mode.mentor ∧ jsTruthy s.studentMbti = false))
    (hdb : s.hasDb = true) (hu : s.hasUserId = true)
    (hshape : extractText body = none) :
    (getAiResponse s (FetchResult.success body) (Except.ok ())).state.response =
      noValidResponseMsg ∧
    (getAiResponse s (FetchResult.success body) (Except.ok ())).state.error = "" ∧
    (getAiResponse s (FetchResult.success body) (Except.ok ())).appended =
      [{ type := s.activeTab, prompt := s.prompt, response := noValidResponseMsg,
         mbti := jsOrNull s.studentMbti, timestamp := WriteTimestamp.serverTimestamp }] := by
  have hgen : generatedTextOf body = noValidResponseMsg := by
    unfold generatedTextOf
    rw [hshape]
  refine ⟨?_, ?_, ?_⟩
  · simp [getAiResponse, finallyCleanup, h1, h2, hdb, hu, hgen]
  · simp [getAiResponse, finallyCleanup, h1, h2, hdb, hu]
  · simp [getAiResponse, h1, h2, hdb, hu, hgen]

/-- Witness for C7 at a concrete state and a shapeless body. -/
theorem malformed_body_placeholder_persisted_witness :
    (getAiResponse exStateBase (FetchResult.success exBodyNone) (Except.ok ())).state.response =
      noValidResponseMsg ∧
    (getAiResponse exStateBase (FetchResult.success exBodyNone) (Except.ok ())).state.error = "" ∧
    (getAiResponse exStateBase (FetchResult.success exBodyNone) (Except.ok ())).appended =
      [{ type := exStateBase.activeTab, prompt := exStateBase.prompt,
         response := noValidResponseMsg, mbti := jsOrNull exStateBase.studentMbti,
         timestamp := WriteTimestamp.serverTimestamp }] :=
  malformed_body_placeholder_persisted exStateBase exBodyNone
    (by decide) (by decide) rfl rfl rfl

/-- A `qa`-mode state with an image still attached (retained from a previous
visit to the image tab). -/
def exImageAttachedQa : AppState :=
  { exStateBase with
    prompt := "안녕",
    imageFile := some { name := "a.png", type := "image/png" },
    imageBase64 := some "QUJD" }

/-- C8 counterexample: an image is attached at submission time, yet because
the active mode is `qa` (not `image`) the request body carries only the text
part — no inline-data part. -/
theorem image_attached_nonimage_mode_no_inline_part :
    exImageAttachedQa.imageBase64 = some "QUJD" ∧
    exImageAttachedQa.activeTab = Mode.qa ∧
    (getAiResponse exImageAttachedQa (FetchResult.success exBodyHello) (Except.ok ())).request =
      some { role := "user",
             parts := [PayloadPart.text "다음 질문에 대해 자세히 답변해줘: 안녕"] } := by
  refine ⟨rfl, rfl, ?_⟩
  rfl

/-- C8 (amended): for every submission that reaches the gateway, the request
body is role-tagged "user" and consists of the text part with the assembled
template, together with an inline-data part carrying the image's MIME type and
base64 payload exactly when the active mode is `image` and an image is
attached; in every other case it is the text part alone. -/
theorem request_text_part_and_image_mode_inline (s : AppState) (fetch : FetchResult)
    (ad : Except String Unit)
    (h1 : ¬(s.prompt = "" ∧ jsTruthy s.imageBase64 = false))
    (h2 : ¬(s.activeTab = Mode.mentor ∧ jsTruthy s.studentMbti = false)) :
    (getAiResponse s fetch ad).request =
      some (buildPayload s (buildFullPrompt s.activeTab s.studentMbti s.prompt)) ∧
    (buildPayload s (buildFullPrompt s.activeTab s.studentMbti s.prompt)).role = "user" ∧
    ((s.activeTab = Mode.image ∧ jsTruthy s.imageBase64 = true) →
      (buildPayload s (buildFullPrompt s.activeTab s.studentMbti s.prompt)).parts =
        [PayloadPart.text (buildFullPrompt s.activeTab s.studentMbti s.prompt),
         PayloadPart.inlineData (imageFileType s.imageFile) (s.imageBase64.getD "")]) ∧
    (¬(s.activeTab = Mode.image ∧ jsTruthy s.imageBase64 = true) →
      (buildPayload s (buildFullPrompt s.activeTab s.studentMbti s.prompt)).parts =
        [PayloadPart.text (buildFullPrompt s.activeTab s.studentMbti s.prompt)]) := by
  refine ⟨?_, ?_, ?_, ?_⟩
  · cases fetch with
    | httpFailure st => simp [getAiResponse, h1, h2]
    | networkError m => simp [getAiResponse, h1, h2]
    | success body =>
        by_cases hdb : s.hasDb = true ∧ s.hasUserId = true
        · cases ad with
          | ok u => simp [getAiResponse, h1, h2, hdb]
          | error m => simp [getAiResponse, h1, h2, hdb]
        · simp [getAiResponse, h1, h2, hdb]
  · unfold buildPayload
    by_cases hc : s.activeTab = Mode.image ∧ jsTruthy s.imageBase64 = true
    · rw [if_pos hc]
    · rw [if_neg hc]
  · intro hc
    unfold buildPayload
    rw [if_pos hc]
    rfl
  · intro hc
    unfold buildPayload
    rw [if_neg hc]

/-- A state in `image` mode with an attached image. -/
def exImageModeState : AppState :=
  { exStateBase with
    activeTab := Mode.image,
    prompt := "안녕",
    imageFile := some { name := "a.png", type := "image/png" },
    imageBase64 := some "QUJD" }

/-- Witness for the amended C8: in image mode with an attached image the
request carries the text part and the inline-data part with the MIME type and
base64 data. -/
theorem request_text_part_and_image_mode_inline_witness :
    (getAiResponse exImageModeState (FetchResult.success exBodyHello) (Except.ok ())).request =
      some (buildPayload exImageModeState
        (buildFullPrompt exImageModeState.activeTab exImageModeState.studentMbti
          exImageModeState.prompt)) ∧
    (buildPayload exImageModeState
        (buildFullPrompt exImageModeState.activeTab exImageModeState.studentMbti
          exImageModeState.prompt)).parts =
      [PayloadPart.text (buildFullPrompt exImageModeState.activeTab
          exImageModeState.studentMbti exImageModeState.prompt),
       PayloadPart.inlineData "image/png" "QUJD"] :=
  ⟨(request_text_part_and_image_mode_inline exImageModeState (FetchResult.success exBodyHello)
      (Except.ok ()) (by decide) (by decide)).1,
   (request_text_part_and_image_mode_inline exImageModeState (FetchResult.success exBodyHello)
      (Except.ok ()) (by decide) (by decide)).2.2.1 ⟨rfl, rfl⟩⟩

/-- The descending comparator is transitive. -/
theorem historyLe_trans (a b c : HistoryItem) :
    historyLe a b = true → historyLe b c = true → historyLe a c = true := by
  unfold historyLe
  intro hab hbc
  simp only [decide_eq_true_eq] at *
  omega

/-- The descending comparator is total. -/
theorem historyLe_total (a b : HistoryItem) :
    (historyLe a b || historyLe b a) = true := by
  unfold historyLe
  simp only [Bool.or_eq_true, decide_eq_true_eq]
  omega

/-- C6: after an `onSnapshot` update with positive resolved timestamps that
are pairwise distinct, the exposed history list is in strictly descending
timestamp order, and every record with an unresolved timestamp comes after
every record with a resolved one. -/
theorem history_feed_sorted_desc (s : AppState) (docs : List HistoryItem)
    (hpos : ∀ e ∈ docs, ∀ t, e.timestamp = some t → 0 < t)
    (hdist : docs.Pairwise (fun a b => ∀ ta tb,
      a.timestamp = some ta → b.timestamp = some tb → ta ≠ tb)) :
    ((onSnapshotUpdate docs s).history).Pairwise (fun a b =>
      b.timestamp = none ∨
      ∃ ta tb, a.timestamp = some ta ∧ b.timestamp = some tb ∧ tb < ta) := by
  have hperm : (sortHistory docs).Perm docs := List.mergeSort_perm docs historyLe
  have hsorted : (sortHistory docs).Pairwise (fun a b => historyLe a b = true) :=
    List.sorted_mergeSort historyLe_trans historyLe_total docs
  have hdist2 : (sortHistory docs).Pairwise (fun a b => ∀ ta tb,
      a.timestamp = some ta → b.timestamp = some tb → ta ≠ tb) := by
    refine (List.Perm.pairwise_iff ?_ hperm).mpr hdist
    intro x y hxy ta tb hx hy
    exact (hxy tb ta hy hx).symm
  have hboth := hsorted.and hdist2
  refine List.Pairwise.imp_of_mem (fun {a b} ha hb hab => ?_) hboth
  obtain ⟨hle, hne⟩ := hab
  have hle2 : sortKey b ≤ sortKey a := by
    have := hle
    unfold historyLe at this
    exact of_decide_eq_true this
  cases hb2 : b.timestamp with
  | none => exact Or.inl rfl
  | some tb =>
      have htb : 0 < tb := hpos b (hperm.mem_iff.mp hb) tb hb2
      have hkb : sortKey b = tb := by simp [sortKey, hb2]
      cases ha2 : a.timestamp with
      | none =>
          exfalso
          have hka : sortKey a = 0 := by simp [sortKey, ha2]
          omega
      | some ta =>
          have hka : sortKey a = ta := by simp [sortKey, ha2]
          have hneq : ta ≠ tb := hne ta tb ha2 hb2
          exact Or.inr ⟨ta, tb, rfl, rfl, by omega⟩


/-- A resolved history record. -/
def exHistResolved : HistoryItem :=
  { id := "a", type := Mode.qa, prompt := "p1", response := "r1", mbti := none,
    timestamp := some 5 }

/-- A history record whose server timestamp is not yet resolved. -/
def exHistPending : HistoryItem :=
  { id := "b", type := Mode.quiz, prompt := "p2", response := "r2", mbti := some "INTJ",
    timestamp := none }

/-- Witness for C6 on a concrete two-record batch. -/
theorem history_feed_sorted_desc_witness :
    ((onSnapshotUpdate [exHistResolved, exHistPending] exStateBase).history).Pairwise
      (fun a b => b.timestamp = none ∨
        ∃ ta tb, a.timestamp = some ta ∧ b.timestamp = some tb ∧ tb < ta) :=
  history_feed_sorted_desc exStateBase [exHistResolved, exHistPending]
    (by
      intro e he t ht
      fin_cases he
      · simp [exHistResolved] at ht
        omega
      · simp [exHistPending] at ht)
    (by simp [List.pairwise_cons, exHistResolved, exHistPending])
